import Mathlib

/-
Shallow embedding of the GameForge enhanced job-queue subsystem
(src/services/enhanced_queue_manager.py) and of the model cache
(src/services/asset-gen/enhanced_ai_pipeline.py, EnhancedModelCache).

Modelling conventions:
* Redis is modelled as explicit state (`QState`): an association list of job
  hashes, four active lists plus four delayed sorted sets (one per priority),
  the dead-letter list, rate-limit counters keyed by their full key strings,
  and the per-user job sets.  Every operation threads the state explicitly.
* `datetime.now()` / `time.time()` are modelled by a `now : Nat` clock field
  of the state (seconds).  `str(datetime)` and `datetime.fromisoformat` are
  abstracted to a decimal rendering of the timestamp and its partial inverse:
  the only property the code path relies on is that rendering then parsing
  returns the original datetime, which holds for the Python pair as well.
* `json.dumps(asdict(job), default=str)` followed by `json.loads` is modelled
  at the decoded-JSON level by `StoredJobData`: enum-typed slots hold a
  `JsonVal` because `asdict` keeps enum members and `default=str` renders
  them as `str(member)` (e.g. "QueuePriority.NORMAL"), while a hand-written
  record could hold the enum's value (an integer / a lowercase string).
* `uuid.uuid4()` and the id of a retry job are externalized as explicit
  arguments of `enqueue_job` / `fail_job`.
* `brpop` with a timeout is modelled as an immediate pop-from-tail returning
  `none` on an empty list (the timeout elapsing); blocking is temporal
  behaviour that no claim depends on.
-/

namespace GameForge

/-- The four queue priority levels, with their Python `Enum` integer values. -/
inductive QueuePriority
  | low
  | normal
  | high
  | urgent
deriving DecidableEq, Repr

/-- The Python enum value of a priority (`LOW = 0`, ..., `URGENT = 3`). -/
def QueuePriority.value : QueuePriority → Nat
  | .low => 0
  | .normal => 1
  | .high => 2
  | .urgent => 3

/-- The Python member name, as used by `str(member)` = "QueuePriority.NAME". -/
def QueuePriority.pyName : QueuePriority → String
  | .low => "LOW"
  | .normal => "NORMAL"
  | .high => "HIGH"
  | .urgent => "URGENT"

/-- `QueuePriority(n)`: the member with value `n`, or a `ValueError` (`none`). -/
def QueuePriority.ofValue? : Nat → Option QueuePriority
  | 0 => some .low
  | 1 => some .normal
  | 2 => some .high
  | 3 => some .urgent
  | _ => none

/-- Job status states, with their Python string values. -/
inductive JobStatus
  | pending
  | queued
  | processing
  | completed
  | failed
  | cancelled
  | expired
deriving DecidableEq, Repr

/-- The Python enum value of a status ("pending", ..., "expired"). -/
def JobStatus.value : JobStatus → String
  | .pending => "pending"
  | .queued => "queued"
  | .processing => "processing"
  | .completed => "completed"
  | .failed => "failed"
  | .cancelled => "cancelled"
  | .expired => "expired"

/-- The Python member name, as used by `str(member)` = "JobStatus.NAME". -/
def JobStatus.pyName : JobStatus → String
  | .pending => "PENDING"
  | .queued => "QUEUED"
  | .processing => "PROCESSING"
  | .completed => "COMPLETED"
  | .failed => "FAILED"
  | .cancelled => "CANCELLED"
  | .expired => "EXPIRED"

/-- `JobStatus(s)`: the member with value `s`, or a `ValueError` (`none`). -/
def JobStatus.ofValue? : String → Option JobStatus
  | "pending" => some .pending
  | "queued" => some .queued
  | "processing" => some .processing
  | "completed" => some .completed
  | "failed" => some .failed
  | "cancelled" => some .cancelled
  | "expired" => some .expired
  | _ => none

/-- The `QueueJob` dataclass.  `payload` and `metadata` are opaque JSON data
(they round-trip losslessly through `json.dumps`/`loads`), modelled as
strings; datetimes are timestamps (see header comment). -/
structure QueueJob where
  job_id : String
  user_id : String
  job_type : String
  payload : String
  priority : QueuePriority
  status : JobStatus
  created_at : Nat
  scheduled_at : Option Nat := none
  started_at : Option Nat := none
  completed_at : Option Nat := none
  retry_count : Nat := 0
  max_retries : Nat := 3
  timeout_seconds : Nat := 300
  error_message : Option String := none
  progress : ℚ := 0
  metadata : String := ""
deriving DecidableEq, Repr

/-- A decoded JSON value sitting in an enum-typed slot of a stored record:
either a JSON integer or a JSON string. -/
inductive JsonVal
  | jint (n : Nat)
  | jstrv (s : String)
deriving DecidableEq, Repr

/-- `str(datetime)` rendering, abstracted to decimal (injective; its partial
inverse below recovers the timestamp, as `datetime.fromisoformat` recovers
the datetime from `str(datetime)` in Python). -/
def pyStrOfTimestamp (t : Nat) : String := toString t

/-- The numeric value of a decimal digit character. -/
def digitVal? (c : Char) : Option Nat :=
  if '0' ≤ c ∧ c ≤ '9' then some (c.toNat - '0'.toNat) else none

/-- Accumulate a decimal number from a character list, failing on any
non-digit. -/
def parseDigits : List Char → Nat → Option Nat
  | [], acc => some acc
  | c :: t, acc =>
    match digitVal? c with
    | some d => parseDigits t (acc * 10 + d)
    | none => none

/-- `datetime.fromisoformat`, abstracted: parses the rendering above and
fails (ValueError, `none`) on anything else — in particular on the
`str(member)` strings an enum slot could feed it. -/
def pyFromisoformat (s : String) : Option Nat :=
  match s.data with
  | [] => none
  | l => parseDigits l 0

/-- The decoded form of the "data" hash field written by `enqueue_job` /
`_update_job_status`: `json.loads(json.dumps(asdict(job), default=str))`.
Enum-typed slots are `JsonVal` because the writer stores `str(member)` while
`_get_job_data` expects the member's value. -/
structure StoredJobData where
  job_id : String
  user_id : String
  job_type : String
  payload : String
  priority : JsonVal
  status : JsonVal
  created_at : String
  scheduled_at : Option String
  started_at : Option String
  completed_at : Option String
  retry_count : Nat
  max_retries : Nat
  timeout_seconds : Nat
  error_message : Option String
  progress : ℚ
  metadata : String
deriving DecidableEq, Repr

/-- `json.dumps(asdict(job), default=str)`, at the decoded-JSON level:
`asdict` keeps enum members and datetimes, `default=str` renders the enum
members as `str(member)` ("QueuePriority.NAME" / "JobStatus.NAME") and the
datetimes as `str(datetime)`. -/
def serializeJob (j : QueueJob) : StoredJobData where
  job_id := j.job_id
  user_id := j.user_id
  job_type := j.job_type
  payload := j.payload
  priority := .jstrv ("QueuePriority." ++ j.priority.pyName)
  status := .jstrv ("JobStatus." ++ j.status.pyName)
  created_at := pyStrOfTimestamp j.created_at
  scheduled_at := j.scheduled_at.map pyStrOfTimestamp
  started_at := j.started_at.map pyStrOfTimestamp
  completed_at := j.completed_at.map pyStrOfTimestamp
  retry_count := j.retry_count
  max_retries := j.max_retries
  timeout_seconds := j.timeout_seconds
  error_message := j.error_message
  progress := j.progress
  metadata := j.metadata

/-- `QueuePriority(data["priority"])`: succeeds only on an integer member
value; a string (such as the stored "QueuePriority.NAME") raises ValueError. -/
def parsePriority : JsonVal → Option QueuePriority
  | .jint n => QueuePriority.ofValue? n
  | .jstrv _ => none

/-- `JobStatus(data["status"])`: succeeds only on a string member value
("queued", ...); "JobStatus.NAME" or an integer raises ValueError. -/
def parseStatus : JsonVal → Option JobStatus
  | .jstrv s => JobStatus.ofValue? s
  | .jint _ => none

/-- The `if data[field]: data[field] = fromisoformat(...)` step for an
optional datetime field: an absent (`None`, falsy) value is kept, a present
string is parsed (propagating ValueError as failure). -/
def parseOptTimestamp : Option String → Option (Option Nat)
  | none => some none
  | some s => (pyFromisoformat s).map some

/-- The parsing body of `_get_job_data`: converts datetime strings back to
datetimes and the enum slots back to enum members, returning `none` where
the Python code catches `ValueError`/`TypeError` and returns `None`. -/
def deserializeJob (d : StoredJobData) : Option QueueJob := do
  let created ← pyFromisoformat d.created_at
  let sched ← parseOptTimestamp d.scheduled_at
  let started ← parseOptTimestamp d.started_at
  let completed ← parseOptTimestamp d.completed_at
  let prio ← parsePriority d.priority
  let stat ← parseStatus d.status
  pure {
    job_id := d.job_id
    user_id := d.user_id
    job_type := d.job_type
    payload := d.payload
    priority := prio
    status := stat
    created_at := created
    scheduled_at := sched
    started_at := started
    completed_at := completed
    retry_count := d.retry_count
    max_retries := d.max_retries
    timeout_seconds := d.timeout_seconds
    error_message := d.error_message
    progress := d.progress
    metadata := d.metadata }

/-- Association-list lookup over string-keyed entries (redis GET / HGETALL of
one key).  Keys written by the code are pairwise distinct. -/
def getKey {α : Type} : List (String × α) → String → Option α
  | [], _ => none
  | (k', v') :: t, k => if k' = k then some v' else getKey t k

/-- Association-list write (redis SET / HSET of a whole key): replaces the
existing entry in place, or appends a new one. -/
def setKey {α : Type} : List (String × α) → String → α → List (String × α)
  | [], k, v => [(k, v)]
  | (k', v') :: t, k, v =>
    if k' = k then (k, v) :: t else (k', v') :: setKey t k v

/-- The redis hash stored under `job:{job_id}`.  `enqueue_job` writes all
three fields; `_update_job_status` rewrites `data` and `status`, keeping
`user_id`. -/
structure JobHash where
  data : StoredJobData
  user_id : String
  status : String
deriving DecidableEq, Repr

/-- The four active lists, one per priority (redis lists `queue:urgent`,
`queue:high`, `queue:normal`, `queue:low`).  Head of the list = head of the
redis list (where `lpush` inserts); `brpop` pops from the tail. -/
structure PrioQueues where
  urgent : List String := []
  high : List String := []
  normal : List String := []
  low : List String := []
deriving DecidableEq, Repr

/-- The active list for a priority. -/
def PrioQueues.get (q : PrioQueues) : QueuePriority → List String
  | .urgent => q.urgent
  | .high => q.high
  | .normal => q.normal
  | .low => q.low

/-- Replace the active list for a priority. -/
def PrioQueues.set (q : PrioQueues) : QueuePriority → List String → PrioQueues
  | .urgent, l => { q with urgent := l }
  | .high, l => { q with high := l }
  | .normal, l => { q with normal := l }
  | .low, l => { q with low := l }

/-- The four delayed sorted sets (`queue:{p}:delayed`), each a member/score
list with pairwise-distinct members (`zadd` updates the score of an existing
member). -/
structure DelayedQueues where
  urgent : List (String × Nat) := []
  high : List (String × Nat) := []
  normal : List (String × Nat) := []
  low : List (String × Nat) := []
deriving DecidableEq, Repr

/-- The delayed sorted set for a priority. -/
def DelayedQueues.get (q : DelayedQueues) : QueuePriority → List (String × Nat)
  | .urgent => q.urgent
  | .high => q.high
  | .normal => q.normal
  | .low => q.low

/-- Replace the delayed sorted set for a priority. -/
def DelayedQueues.set (q : DelayedQueues) :
    QueuePriority → List (String × Nat) → DelayedQueues
  | .urgent, l => { q with urgent := l }
  | .high, l => { q with high := l }
  | .normal, l => { q with normal := l }
  | .low, l => { q with low := l }

/-- `zadd key {member: score}`: update the score of an existing member,
otherwise add the member. -/
def zaddList (l : List (String × Nat)) (m : String) (score : Nat) :
    List (String × Nat) :=
  if l.any (fun e => e.1 = m) then
    l.map (fun e => if e.1 = m then (m, score) else e)
  else l ++ [(m, score)]

/-- One dead-letter entry, as built by `DeadLetterQueue.add_failed_job`. -/
structure DLQEntry where
  job_id : String
  user_id : String
  job_type : String
  failed_at : Nat
  error : String
  retry_count : Nat
  original_payload : String
deriving DecidableEq, Repr

/-- The whole durable (redis) state plus the manager's in-process counters
and the current wall clock. -/
structure QState where
  now : Nat
  maxQueueSize : Nat := 1000
  store : List (String × JobHash) := []
  results : List (String × String) := []
  active : PrioQueues := {}
  delayed : DelayedQueues := {}
  dlq : List DLQEntry := []
  rate : List (String × Nat) := []
  userJobs : List (String × List String) := []
  statsQueued : Nat := 0
  statsProcessed : Nat := 0
  statsFailed : Nat := 0
  statsOverflows : Nat := 0
deriving DecidableEq, Repr

/-! ## RateLimiter -/

/-- `requests_per_minute` limit. -/
def requestsPerMinute : Nat := 10
/-- `requests_per_hour` limit. -/
def requestsPerHour : Nat := 100
/-- `requests_per_day` limit. -/
def requestsPerDay : Nat := 500
/-- `concurrent_jobs` limit. -/
def concurrentJobsLimit : Nat := 3

/-- The minute-window rate key; `strftime` window stamps are abstracted to
the window index (injective per window, shared within it). -/
def minuteKey (u : String) (t : Nat) : String :=
  "rate_limit:minute:" ++ u ++ ":" ++ toString (t / 60)

/-- The hour-window rate key. -/
def hourKey (u : String) (t : Nat) : String :=
  "rate_limit:hour:" ++ u ++ ":" ++ toString (t / 3600)

/-- The day-window rate key. -/
def dayKey (u : String) (t : Nat) : String :=
  "rate_limit:day:" ++ u ++ ":" ++ toString (t / 86400)

/-- Python `if count and int(count) >= limit`: an absent counter (`None`) is
falsy and passes the check. -/
def overLimit (c : Option Nat) (limit : Nat) : Bool :=
  match c with
  | some n => limit ≤ n
  | none => false

/-- The key-name glob `job:*:user:{u}:status:processing` used by
`get_concurrent_jobs`; `*` matches any (possibly empty) run of characters,
so a key matches exactly when it decomposes as the prefix, a middle part and
the suffix. -/
def concurrentSuffix (u : String) : String :=
  ":user:" ++ u ++ ":status:processing"

/-- Whether the pattern list is an initial segment of the text list. -/
def listStarts : List Char → List Char → Bool
  | [], _ => true
  | _ :: _, [] => false
  | p :: ps, c :: cs => p = c && listStarts ps cs

/-- `str.startswith`, over the character lists. -/
def strStarts (s pat : String) : Bool := listStarts pat.data s.data

/-- `str.endswith`, over the character lists. -/
def strEnds (s pat : String) : Bool :=
  listStarts pat.data.reverse s.data.reverse

/-- Whether a key name matches the glob above. -/
def matchesProcessing (u key : String) : Bool :=
  strStarts key "job:" && strEnds key (concurrentSuffix u) &&
    decide ("job:".length + (concurrentSuffix u).length ≤ key.length)

/-- All key names present in the keyspace (`redis.keys` scans every key).
The fixed-name keys (`queue:urgent`, ..., their `:delayed` twins and
`dead_letter_queue`) never start with "job:" and are omitted since they can
never match the glob. -/
def allKeys (s : QState) : List String :=
  s.store.map Prod.fst ++ s.results.map Prod.fst ++
    s.rate.map Prod.fst ++ s.userJobs.map Prod.fst

/-- `RateLimiter.get_concurrent_jobs`: count of keys matching the glob. -/
def get_concurrent_jobs (s : QState) (user_id : String) : Nat :=
  ((allKeys s).filter (matchesProcessing user_id)).length

/-- `RateLimiter.check_rate_limit`: minute, hour, day, then concurrent-job
checks, short-circuiting with the first violated limit's reason. -/
def check_rate_limit (s : QState) (user_id : String) : Bool × String :=
  if overLimit (getKey s.rate (minuteKey user_id s.now)) requestsPerMinute then
    (false, "Rate limit exceeded: too many requests per minute")
  else if overLimit (getKey s.rate (hourKey user_id s.now)) requestsPerHour then
    (false, "Rate limit exceeded: too many requests per hour")
  else if overLimit (getKey s.rate (dayKey user_id s.now)) requestsPerDay then
    (false, "Rate limit exceeded: too many requests per day")
  else if concurrentJobsLimit ≤ get_concurrent_jobs s user_id then
    (false, "Rate limit exceeded: too many concurrent jobs")
  else (true, "OK")

/-- `incr` on one counter key (absent counters start at 0). -/
def bumpKey (l : List (String × Nat)) (k : String) : List (String × Nat) :=
  setKey l k ((getKey l k).getD 0 + 1)

/-- `RateLimiter.increment_rate_limit`: bump the three window counters (the
TTLs only garbage-collect stale windows and are not modelled; windowing
itself lives in the window-stamped key names). -/
def increment_rate_limit (s : QState) (user_id : String) : QState :=
  { s with rate :=
      bumpKey (bumpKey (bumpKey s.rate (minuteKey user_id s.now))
        (hourKey user_id s.now)) (dayKey user_id s.now) }

/-! ## EnhancedQueueManager -/

/-- `_get_total_queue_size`: `llen` of each active list plus `zcard` of each
delayed sorted set, over the four priorities. -/
def get_total_queue_size (s : QState) : Nat :=
  s.active.urgent.length + s.delayed.urgent.length +
    s.active.high.length + s.delayed.high.length +
    s.active.normal.length + s.delayed.normal.length +
    s.active.low.length + s.delayed.low.length

/-- `sadd` on a per-user set key. -/
def saddUser (l : List (String × List String)) (k v : String) :
    List (String × List String) :=
  match getKey l k with
  | some members =>
    if members.any (fun m => m = v) then l else setKey l k (members ++ [v])
  | none => setKey l k [v]

/-- `srem` on a per-user set key. -/
def sremUser (l : List (String × List String)) (k v : String) :
    List (String × List String) :=
  match getKey l k with
  | some members => setKey l k (members.filter (fun m => m ≠ v))
  | none => l

/-- `enqueue_job`: rate-limit check, overflow check, job creation and
persistence, push onto the active list or delayed sorted set, rate-limit
increment, stats and per-user tracking.  `job_id` stands for the freshly
generated `uuid4`. -/
def enqueue_job (s : QState) (user_id job_type payload : String)
    (priority : QueuePriority) (delay_seconds : Nat) (job_id : String) :
    (Bool × String × Option String) × QState :=
  let rl := check_rate_limit s user_id
  if rl.1 = false then ((false, rl.2, none), s)
  else if s.maxQueueSize ≤ get_total_queue_size s then
    ((false, "Queue is full, please try again later", none),
      { s with statsOverflows := s.statsOverflows + 1 })
  else
    let job : QueueJob :=
      { job_id := job_id
        user_id := user_id
        job_type := job_type
        payload := payload
        priority := priority
        status := .queued
        created_at := s.now
        scheduled_at :=
          if 0 < delay_seconds then some (s.now + delay_seconds) else none }
    let s1 := { s with store := (setKey s.store ("job:" ++ job_id)
      { data := serializeJob job, user_id := user_id,
        status := JobStatus.queued.value }) }
    let s2 :=
      if 0 < delay_seconds then
        let dl := zaddList (s1.delayed.get priority) job_id
          (s.now + delay_seconds)
        { s1 with delayed := s1.delayed.set priority dl }
      else
        let al := job_id :: s1.active.get priority
        { s1 with active := s1.active.set priority al }
    let s3 := increment_rate_limit s2 user_id
    let uj := saddUser s3.userJobs ("user:" ++ user_id ++ ":jobs") job_id
    let s4 := { s3 with statsQueued := s3.statsQueued + 1, userJobs := uj }
    ((true, "Job queued successfully", some job_id), s4)

/-- Insert an entry into a score-ordered list (ties broken by member name,
as a redis sorted set orders them). -/
def zinsert (e : String × Nat) : List (String × Nat) → List (String × Nat)
  | [] => [e]
  | f :: t =>
    if e.2 < f.2 ∨ (e.2 = f.2 ∧ e.1 ≤ f.1) then e :: f :: t
    else f :: zinsert e t

/-- Sort entries the way sorted-set iteration yields them: ascending score,
ties by member name. -/
def zsorted : List (String × Nat) → List (String × Nat)
  | [] => []
  | e :: t => zinsert e (zsorted t)

/-- `zrangebyscore key 0 now`: the ready entries, in score order. -/
def zready (l : List (String × Nat)) (now : Nat) : List (String × Nat) :=
  zsorted (l.filter (fun e => e.2 ≤ now))

/-- The promotion body of `_process_delayed_jobs` for one priority: `lpush`
each ready job onto the active list (in ready order, so the last-pushed ends
at the head) and `zrem` it from the delayed set. -/
def promoteDelayed (s : QState) (p : QueuePriority) : QState :=
  let ready := zready (s.delayed.get p) s.now
  if ready = [] then s
  else
    { s with
      active := s.active.set p
        ((ready.map Prod.fst).reverse ++ s.active.get p),
      delayed := s.delayed.set p
        ((s.delayed.get p).filter
          (fun e => ¬ (ready.map Prod.fst).any (fun m => m = e.1))) }

/-- `_process_delayed_jobs`: promote ready delayed jobs for every priority
(iterated in enum definition order LOW, NORMAL, HIGH, URGENT). -/
def process_delayed_jobs (s : QState) : QState :=
  promoteDelayed (promoteDelayed (promoteDelayed (promoteDelayed s
    .low) .normal) .high) .urgent

/-- `_get_job_data`: read the "data" hash field of `job:{job_id}` and parse
it; `none` when the key is absent or parsing raises. -/
def get_job_data (s : QState) (job_id : String) : Option QueueJob :=
  match getKey s.store ("job:" ++ job_id) with
  | some h => deserializeJob h.data
  | none => none

/-- `_update_job_status`: re-read the job, set the status (plus
`started_at`/`completed_at`/`error_message` as applicable), rewrite the
hash's `data` and `status` fields, and drop the job from the per-user set on
completion/failure/cancellation.  A job whose record cannot be parsed is
left untouched. -/
def update_job_status (s : QState) (job_id : String) (status : JobStatus)
    (error : Option String) : QState :=
  let key := "job:" ++ job_id
  match getKey s.store key with
  | none => s
  | some h =>
    match deserializeJob h.data with
    | none => s
    | some j0 =>
      let j1 := { j0 with status := status }
      let j2 :=
        if status = .processing then { j1 with started_at := some s.now }
        else if status = .completed ∨ status = .failed ∨ status = .cancelled
        then { j1 with completed_at := some s.now }
        else j1
      let j3 := match error with
        | some e => { j2 with error_message := some e }
        | none => j2
      let s1 := { s with store := (setKey s.store key
        { h with data := serializeJob j3, status := status.value }) }
      if status = .completed ∨ status = .failed ∨ status = .cancelled then
        { s1 with userJobs :=
            sremUser s1.userJobs ("user:" ++ j0.user_id ++ ":jobs") job_id }
      else s1

/-- One priority step of `dequeue_job`'s loop: `brpop` the active list.
Outer `none`: the list was empty (timeout) — try the next priority.
`some none`: an id was popped but its record failed to parse — the id is
lost and the loop moves on.  `some (some j)`: the job is returned after its
status is flipped to PROCESSING. -/
def dequeueFrom (s : QState) (p : QueuePriority) :
    Option (Option QueueJob) × QState :=
  match (s.active.get p).getLast? with
  | none => (none, s)
  | some job_id =>
    let s1 := { s with active := s.active.set p (s.active.get p).dropLast }
    match get_job_data s1 job_id with
    | some j => (some (some j), update_job_status s1 job_id .processing none)
    | none => (some none, s1)

/-- The priority loop of `dequeue_job` (URGENT, HIGH, NORMAL, LOW). -/
def dequeueLoop : QState → List QueuePriority → Option QueueJob × QState
  | s, [] => (none, s)
  | s, p :: rest =>
    match dequeueFrom s p with
    | (some (some j), s') => (some j, s')
    | (_, s') => dequeueLoop s' rest

/-- `dequeue_job`: promote ready delayed jobs, then try each priority queue
in order; returns the parsed job (as read, i.e. before the PROCESSING
update) or `none`. -/
def dequeue_job (s : QState) : Option QueueJob × QState :=
  dequeueLoop (process_delayed_jobs s)
    [.urgent, .high, .normal, .low]

/-- `complete_job`: status → COMPLETED, stats bump, result stored under its
own key. -/
def complete_job (s : QState) (job_id result : String) : QState :=
  let s1 := update_job_status s job_id .completed none
  let res := setKey s1.results ("job:" ++ job_id ++ ":result") result
  { s1 with statsProcessed := s1.statsProcessed + 1, results := res }

/-- `DeadLetterQueue.add_failed_job` followed by the stats bump of
`fail_job`'s final-failure path: `lpush` the snapshot (built from the local
job object, with its incremented `retry_count`) and `ltrim 0 999`. -/
def finalFailure (s : QState) (job_id : String) (j : QueueJob)
    (error : String) : QState :=
  let s1 := update_job_status s job_id .failed (some error)
  let s2 := { s1 with dlq :=
    (({ job_id := j.job_id, user_id := j.user_id, job_type := j.job_type,
        failed_at := s1.now, error := error, retry_count := j.retry_count,
        original_payload := j.payload } : DLQEntry) :: s1.dlq).take 1000 }
  { s2 with statsFailed := s2.statsFailed + 1 }

/-- `fail_job`: read the job (a record that fails to parse makes the whole
call a no-op), increment the local `retry_count`, and either re-enqueue a
new job id with exponential backoff through the full `enqueue_job` admission
path (marking the original CANCELLED on success) or fall through to the
final-failure path (FAILED + dead-letter entry).  `new_job_id` stands for
the `uuid4` of the retry job. -/
def fail_job (s : QState) (job_id error : String) (retry : Bool)
    (new_job_id : String) : QState :=
  match get_job_data s job_id with
  | none => s
  | some j0 =>
    let j := { j0 with retry_count := j0.retry_count + 1 }
    if retry ∧ j.retry_count ≤ j.max_retries then
      let delay := min 300 (10 * 2 ^ j.retry_count)
      let r := enqueue_job s j.user_id j.job_type j.payload j.priority delay
        new_job_id
      if r.1.1 then
        update_job_status r.2 job_id .cancelled (some ("Retrying: " ++ error))
      else finalFailure r.2 job_id j error
    else finalFailure s job_id j error

/-- The "status" hash field of a stored job, the terminal observable for the
status claims. -/
def storedStatus (s : QState) (job_id : String) : Option String :=
  (getKey s.store ("job:" ++ job_id)).map JobHash.status

/-! ## EnhancedModelCache (enhanced_ai_pipeline.py)

Python dicts are insertion-ordered, which `min`/`max` tie-breaking observes;
`setKey` above has exactly the dict-write semantics (update in place, else
append), so the same association lists model the three dicts.  `datetime.now()`
is externalized as the `t` argument of `get`/`put`; the memory monitor's
`check_memory_pressure()` result and `torch.cuda.is_available()` are carried
as fields (`force_cleanup`/`empty_cache`/`gc.collect` act on device state
outside this model and change no cache field). -/

/-- The `EnhancedModelCache` state: the three dicts and configuration. -/
structure ModelCache where
  cache : List (String × String) := []
  usage_times : List (String × Nat) := []
  memory_sizes : List (String × Nat) := []
  max_models : Nat := 2
  pressure : Bool := false
  cuda : Bool := false
deriving DecidableEq, Repr

/-- `del dict[key]` on an association-list dict. -/
def delKey {α : Type} (l : List (String × α)) (k : String) :
    List (String × α) :=
  l.filter (fun e => e.1 ≠ k)

/-- Python `min(pairs, key=value)`: the first entry (in iteration order)
attaining the minimal value. -/
def firstMin : List (String × Nat) → Option (String × Nat)
  | [] => none
  | e :: t =>
    match firstMin t with
    | none => some e
    | some m => if e.2 ≤ m.2 then some e else some m

/-- Python `max(pairs, key=value)`: the first entry attaining the maximal
value. -/
def firstMax : List (String × Nat) → Option (String × Nat)
  | [] => none
  | e :: t =>
    match firstMax t with
    | none => some e
    | some m => if e.2 < m.2 then some m else some e

/-- `_evict`: drop the model from all three dicts if cached (the subsequent
`gc.collect`/`empty_cache` touch only device state). -/
def ModelCache.evict (c : ModelCache) (model_id : String) : ModelCache :=
  if (getKey c.cache model_id).isSome then
    let nc := delKey c.cache model_id
    let nu := delKey c.usage_times model_id
    let nm := delKey c.memory_sizes model_id
    { c with cache := nc, usage_times := nu, memory_sizes := nm }
  else c

/-- The `while len(cache) >= max_models` LRU loop of `_ensure_cache_space`,
evicting the least-recently-used entry each round.  Fuel bounds the loop
(each eviction shrinks the cache; with `max_models = 0` and an empty cache
the Python code raises ValueError on `min([])`, modelled by stopping). -/
def lruEvictLoop : ModelCache → Nat → ModelCache
  | c, 0 => c
  | c, fuel + 1 =>
    if c.max_models ≤ c.cache.length then
      match firstMin c.usage_times with
      | some oldest => lruEvictLoop (c.evict oldest.1) fuel
      | none => c
    else c

/-- `_evict_all_except_newest`: emergency eviction keeping only the most
recently used model (then `force_cleanup`, device-level). -/
def ModelCache.evict_all_except_newest (c : ModelCache) : ModelCache :=
  if c.cache = [] then c
  else
    match firstMax c.usage_times with
    | none => c
    | some newest =>
      ((c.cache.map Prod.fst).filter (fun m => m ≠ newest.1)).foldl
        (fun acc m => acc.evict m) c

/-- `_ensure_cache_space`: aggressive eviction under memory pressure,
otherwise strict LRU down to below `max_models`. -/
def ModelCache.ensure_cache_space (c : ModelCache) : ModelCache :=
  if c.pressure then c.evict_all_except_newest
  else lruEvictLoop c (c.cache.length + 1)

/-- `get`: on a hit, refresh the last-access timestamp to the current time
`t` and return the handle. -/
def ModelCache.get (c : ModelCache) (t : Nat) (model_id : String) :
    Option String × ModelCache :=
  match getKey c.cache model_id with
  | some h =>
    (some h, { c with usage_times := setKey c.usage_times model_id t })
  | none => (none, c)

/-- `put`: ensure space, then insert the model with access time `t`.  The
measured memory footprint (a device-state delta, recorded only when CUDA is
available and never read back by control flow — it is only logged on
eviction) is recorded as an opaque 0. -/
def ModelCache.put (c : ModelCache) (t : Nat) (model_id handle : String) :
    ModelCache :=
  let c1 := c.ensure_cache_space
  let nc := setKey c1.cache model_id handle
  let nu := setKey c1.usage_times model_id t
  let c2 := { c1 with cache := nc, usage_times := nu }
  if c2.cuda then { c2 with memory_sizes := setKey c2.memory_sizes model_id 0 }
  else c2

/-! ## General lemmas -/

/-- Binding into an always-failing continuation fails. -/
theorem obind_none {α β : Type} (o : Option α) (f : α → Option β)
    (h : ∀ a, f a = none) : (o >>= f) = none := by
  cases o <;> simp [h, Bind.bind, Option.bind]

/-- A key just written reads back as the written value. -/
theorem getKey_setKey_self {α : Type} (l : List (String × α)) (k : String)
    (v : α) : getKey (setKey l k v) k = some v := by
  induction l with
  | nil => simp [setKey, getKey]
  | cons e t ih =>
    by_cases h : e.1 = k
    · simp [setKey, getKey, h]
    · simp [setKey, getKey, h, ih]

/-- `zadd` grows a sorted set by at most one member. -/
theorem zaddList_length (l : List (String × Nat)) (m : String) (sc : Nat) :
    (zaddList l m sc).length ≤ l.length + 1 := by
  unfold zaddList
  split
  · simp
  · simp

/-- The serialization defect: a record written by `serializeJob` never
parses back, because the enum slots hold `str(member)` strings while the
reader expects the member values. -/
theorem deserialize_serialize (j : QueueJob) :
    deserializeJob (serializeJob j) = none := by
  simp only [deserializeJob, serializeJob]
  apply obind_none; intro c
  apply obind_none; intro sc
  apply obind_none; intro st
  apply obind_none; intro co
  simp [parsePriority, Bind.bind, Option.bind]

/-- A rejected `enqueue_job` call leaves the job store, the queues and the
clock untouched (only the overflow counter may move). -/
theorem enqueue_reject_state (s : QState) (u jt pl : String)
    (p : QueuePriority) (d : Nat) (id : String)
    (h : (enqueue_job s u jt pl p d id).1.1 = false) :
    (enqueue_job s u jt pl p d id).2.store = s.store ∧
    (enqueue_job s u jt pl p d id).2.active = s.active ∧
    (enqueue_job s u jt pl p d id).2.delayed = s.delayed ∧
    (enqueue_job s u jt pl p d id).2.now = s.now := by
  by_cases hc : (check_rate_limit s u).1 = false
  · simp [enqueue_job, hc]
  · by_cases hov : s.maxQueueSize ≤ get_total_queue_size s
    · simp [enqueue_job, hc, hov]
    · exfalso
      simp [enqueue_job, hc, hov] at h

/-- A successful `enqueue_job` call writes exactly one job hash, whose
"data" field is the `serializeJob` image of the created job. -/
theorem enqueue_success_store (s : QState) (u jt pl : String)
    (p : QueuePriority) (d : Nat) (id : String)
    (h : (enqueue_job s u jt pl p d id).1.1 = true) :
    (enqueue_job s u jt pl p d id).2.store =
      setKey s.store ("job:" ++ id)
        { data := serializeJob
            { job_id := id, user_id := u, job_type := jt, payload := pl,
              priority := p, status := .queued, created_at := s.now,
              scheduled_at := if 0 < d then some (s.now + d) else none },
          user_id := u, status := "queued" } := by
  by_cases hc : (check_rate_limit s u).1 = false
  · simp [enqueue_job, hc] at h
  · by_cases hov : s.maxQueueSize ≤ get_total_queue_size s
    · simp [enqueue_job, hc, hov] at h
    · by_cases hd : 0 < d <;>
        simp [enqueue_job, hc, hov, hd, increment_rate_limit,
          JobStatus.value]

/-- C1: the round-trip claim fails on the code.  Every job record written by
a successful `enqueue_job` reads back as `None` from `_get_job_data` — not
as a `Job` equal to the original — because `json.dumps(asdict(job),
default=str)` stores the enum fields as `str(member)` ("QueuePriority.NAME",
"JobStatus.NAME") while the reader reconstructs them with
`QueuePriority(...)`/`JobStatus(...)`, which expect the member values and
raise ValueError, making `_get_job_data` return `None`. -/
theorem claim_C1_roundtrip_broken (s : QState) (u jt pl : String)
    (p : QueuePriority) (d : Nat) (id : String)
    (h : (enqueue_job s u jt pl p d id).1.1 = true) :
    get_job_data (enqueue_job s u jt pl p d id).2 id = none := by
  have hst := enqueue_success_store s u jt pl p d id h
  simp [get_job_data, hst, getKey_setKey_self, deserialize_serialize]

/-- C1 witness: a concrete successful enqueue whose record reads back as
`None`, with the garbled enum slots exhibited. -/
theorem claim_C1_roundtrip_broken_witness :
    (enqueue_job { now := 100 } "u" "generation" "pay" .normal 0 "j1").1.1
        = true ∧
    get_job_data
        (enqueue_job { now := 100 } "u" "generation" "pay" .normal 0 "j1").2
        "j1" = none ∧
    (getKey (enqueue_job { now := 100 } "u" "generation" "pay" .normal 0
          "j1").2.store "job:j1").map (fun h => h.data.priority) =
      some (.jstrv "QueuePriority.NORMAL") ∧
    (getKey (enqueue_job { now := 100 } "u" "generation" "pay" .normal 0
          "j1").2.store "job:j1").map (fun h => h.data.status) =
      some (.jstrv "JobStatus.QUEUED") :=
  ⟨by decide,
    claim_C1_roundtrip_broken { now := 100 } "u" "generation" "pay" .normal
      0 "j1" (by decide),
    by decide, by decide⟩

/-- A freshly initialized manager state (empty redis keyspace) at clock
`t`, with the default `max_queue_size = 1000`. -/
def freshState (t : Nat) : QState := { now := t }

/-- The state after enqueuing one ordinary job `j1` for user "u". -/
def c2Start : QState :=
  (enqueue_job (freshState 0) "u" "generation" "pay" .normal 0 "j1").2

/-- The state after the worker reports failure on `j1` four times with
`retry=true` (the spec's `max_retries = 3` exhaustion scenario); the `rN`
arguments are the uuids a retry job would get. -/
def c2After : QState :=
  fail_job (fail_job (fail_job (fail_job c2Start "j1" "boom" true "r1")
    "j1" "boom" true "r2") "j1" "boom" true "r3") "j1" "boom" true "r4"

/-- C2: the retry-exhaustion claim fails on the code.  After four
`fail_job(..., retry=true)` reports on a job with `max_retries = 3`, the
dead-letter queue is still empty, the job's stored status is still "queued"
(not FAILED), no retry job was ever enqueued — the four calls changed
nothing at all, because `fail_job` starts with `_get_job_data`, which
cannot parse any record written by `enqueue_job` and returns `None`, making
`fail_job` return immediately.  (Even with parsing fixed, the retry path
re-enqueues a fresh job whose `retry_count` restarts at 0, so the cap could
never be reached and no dead-letter entry with `retry_count == 4` could
arise.) -/
theorem claim_C2_retry_exhaustion_scenario :
    (enqueue_job (freshState 0) "u" "generation" "pay" .normal 0 "j1").1.1
        = true ∧
    c2After.dlq = [] ∧
    storedStatus c2After "j1" = some "queued" ∧
    getKey c2After.store "job:r1" = none ∧
    c2After = c2Start := by decide

/-- The state after enqueuing job A at NORMAL and then job B at URGENT,
both without delay, into a fresh manager. -/
def c4State : QState :=
  (enqueue_job (enqueue_job (freshState 0) "u" "generation" "payA"
    .normal 0 "idA").2 "u" "generation" "payB" .urgent 0 "idB").2

/-- C4: the priority-scheduling claim fails on the code.  With A (NORMAL)
then B (URGENT) enqueued and eligible, the next `dequeue_job` does not
return B: it pops B's id from the urgent queue, fails to parse its stored
record (the C1 serialization defect), silently discards the id, then does
the same to A, and returns `None` — both jobs are lost. -/
theorem claim_C4_priority_scenario :
    (enqueue_job (freshState 0) "u" "generation" "payA" .normal 0
        "idA").1.1 = true ∧
    (enqueue_job (enqueue_job (freshState 0) "u" "generation" "payA"
        .normal 0 "idA").2 "u" "generation" "payB" .urgent 0 "idB").1.1
        = true ∧
    c4State.active.urgent = ["idB"] ∧
    c4State.active.normal = ["idA"] ∧
    (dequeue_job c4State).1 = none ∧
    (dequeue_job c4State).2.active.urgent = [] ∧
    (dequeue_job c4State).2.active.normal = [] := by decide

/-- The state after enqueuing a job with `delay_seconds = 5` at clock 0. -/
def c5State : QState :=
  (enqueue_job (freshState 0) "u" "generation" "pay" .normal 5 "jd").2

/-- The same state once the clock has passed the due time. -/
def c5Later : QState := { c5State with now := 6 }

/-- C5: the delayed-job claim fails on the code in its last step.  The job
id does reside only in its priority's delayed sorted set (score = enqueue
time + delay), is untouched by a `dequeue_job` before the due time, and the
promotion step of the first `dequeue_job` after the due time does move it
from the delayed set to the active queue — but the job never becomes
dequeue-able: the same `dequeue_job` call pops the promoted id, fails to
parse its stored record (the C1 serialization defect), discards it and
returns `None`. -/
theorem claim_C5_delayed_scenario :
    (enqueue_job (freshState 0) "u" "generation" "pay" .normal 5
        "jd").1.1 = true ∧
    c5State.delayed.normal = [("jd", 5)] ∧
    c5State.active.normal = [] ∧
    (dequeue_job c5State).1 = none ∧
    (dequeue_job c5State).2.delayed.normal = [("jd", 5)] ∧
    (process_delayed_jobs c5Later).active.normal = ["jd"] ∧
    (process_delayed_jobs c5Later).delayed.normal = [] ∧
    (dequeue_job c5Later).1 = none ∧
    (dequeue_job c5Later).2.active.normal = [] := by decide

/-- A job hash as the queue manager writes it, with the "status" hash field
set to "processing" for user "u". -/
def processingHash : JobHash :=
  { data := serializeJob
      { job_id := "1", user_id := "u", job_type := "generation",
        payload := "pay", priority := .normal, status := .processing,
        created_at := 5 },
    user_id := "u", status := "processing" }

/-- A store holding three PROCESSING jobs of user "u", under the
`job:{job_id}` keys the queue manager uses. -/
def c8State : QState :=
  { now := 0,
    store := [("job:1", processingHash), ("job:2", processingHash),
      ("job:3", processingHash)] }

/-- C8: the concurrent-jobs rate limit fails on the code.  With three
PROCESSING jobs of user "u" in the job store (at the `job:{job_id}` keys the
queue manager writes, with the "status" hash field "processing"),
`get_concurrent_jobs` still counts 0 and `check_rate_limit` returns
`(True, "OK")` instead of a concurrent-jobs rejection: the count scans for
key names matching `job:*:user:u:status:processing`, a naming scheme no
writer in the module ever produces. -/
theorem claim_C8_concurrent_not_counted :
    c8State.store.map Prod.fst = ["job:1", "job:2", "job:3"] ∧
    (getKey c8State.store "job:1").map JobHash.status = some "processing" ∧
    (getKey c8State.store "job:1").map JobHash.user_id = some "u" ∧
    get_concurrent_jobs c8State "u" = 0 ∧
    check_rate_limit c8State "u" = (true, "OK") := by decide

/-- The cache after put(A) at t=1, put(B) at t=2, get(A) at t=3, put(C) at
t=4, with the default `max_models = 2`, no memory pressure and no CUDA
device. -/
def c9Final : ModelCache :=
  (((({} : ModelCache).put 1 "A" "hA").put 2 "B" "hB").get 3 "A").2.put 4
    "C" "hC"

/-- C9: confirmed.  With `max_models = 2` and no memory pressure, the
sequence put(A), put(B), get(A), put(C) evicts B — the entry whose
last-access timestamp is oldest after get(A) refreshed A's — and leaves A
and C cached with their handles; the intermediate get(A) hit returns A's
handle and refreshes its timestamp, so eviction is least-recently-used, not
insertion-order. -/
theorem claim_C9_lru_eviction :
    ((((({} : ModelCache).put 1 "A" "hA").put 2 "B" "hB").get 3 "A").1
        = some "hA") ∧
    c9Final.cache.map Prod.fst = ["A", "C"] ∧
    getKey c9Final.cache "A" = some "hA" ∧
    getKey c9Final.cache "B" = none ∧
    getKey c9Final.cache "C" = some "hC" ∧
    c9Final.usage_times = [("A", 3), ("C", 4)] := by decide

/-- Pushing one id onto an active list grows the total queue size by
exactly one. -/
theorem total_active_push (s : QState) (p : QueuePriority) (id : String) :
    get_total_queue_size
        { s with active := s.active.set p (id :: s.active.get p) } =
      get_total_queue_size s + 1 := by
  cases p <;>
    simp [get_total_queue_size, PrioQueues.set, PrioQueues.get] <;> omega

/-- `zadd`-ing one member into a delayed set grows the total queue size by
at most one. -/
theorem total_delayed_zadd (s : QState) (p : QueuePriority) (id : String)
    (sc : Nat) :
    get_total_queue_size
        { s with delayed := s.delayed.set p (zaddList (s.delayed.get p) id sc) } ≤
      get_total_queue_size s + 1 := by
  cases p with
  | low =>
    have hz := zaddList_length s.delayed.low id sc
    simp [get_total_queue_size, DelayedQueues.set, DelayedQueues.get]
    omega
  | normal =>
    have hz := zaddList_length s.delayed.normal id sc
    simp [get_total_queue_size, DelayedQueues.set, DelayedQueues.get]
    omega
  | high =>
    have hz := zaddList_length s.delayed.high id sc
    simp [get_total_queue_size, DelayedQueues.set, DelayedQueues.get]
    omega
  | urgent =>
    have hz := zaddList_length s.delayed.urgent id sc
    simp [get_total_queue_size, DelayedQueues.set, DelayedQueues.get]
    omega

/-- A full queue whose would-be caller is also rate-limited: one job in the
normal active list with `max_queue_size = 1`, and user "u"'s minute counter
already at the limit. -/
def c3Cex : QState :=
  { now := 0, maxQueueSize := 1, active := { normal := ["x"] },
    rate := [("rate_limit:minute:u:0", 10)] }

/-- C3 counterexample: an `enqueue_job` call made while the total number of
queued items is at least `max_queue_size` that does NOT return a queue-full
reason — the rate-limit check runs first and its reason wins, refuting the
claim's "returns (false, a queue-full reason, None)" as universally
stated.  (No job is created either way.) -/
theorem claim_C3_counterexample :
    c3Cex.maxQueueSize ≤ get_total_queue_size c3Cex ∧
    (enqueue_job c3Cex "u" "generation" "pay" .normal 0 "y").1 =
      (false, "Rate limit exceeded: too many requests per minute", none) ∧
    "Rate limit exceeded: too many requests per minute" ≠
      "Queue is full, please try again later" := by decide

/-- C3 amended: every `enqueue_job` call made while the total queued count
(active lists plus delayed sorted sets) is at least `max_queue_size` fails,
returns no job id, and creates and pushes nothing — with the queue-full
reason whenever the rate-limit check passes (otherwise the rate-limit
reason is returned first); and any `enqueue_job` call preserves the
invariant that the total queued count never exceeds `max_queue_size`. -/
theorem claim_C3_overflow_contract (s : QState) (u jt pl : String)
    (p : QueuePriority) (d : Nat) (id : String) :
    (s.maxQueueSize ≤ get_total_queue_size s →
      (enqueue_job s u jt pl p d id).1.1 = false ∧
      (enqueue_job s u jt pl p d id).1.2.2 = none ∧
      (enqueue_job s u jt pl p d id).2.store = s.store ∧
      (enqueue_job s u jt pl p d id).2.active = s.active ∧
      (enqueue_job s u jt pl p d id).2.delayed = s.delayed ∧
      ((check_rate_limit s u).1 = true →
        (enqueue_job s u jt pl p d id).1.2.1 =
          "Queue is full, please try again later")) ∧
    (get_total_queue_size s ≤ s.maxQueueSize →
      get_total_queue_size (enqueue_job s u jt pl p d id).2 ≤
        s.maxQueueSize) := by
  constructor
  · intro hov
    by_cases hc : (check_rate_limit s u).1 = false
    · simp [enqueue_job, hc]
    · simp [enqueue_job, hc, hov]
  · intro hle
    by_cases hc : (check_rate_limit s u).1 = false
    · simp [enqueue_job, hc]
      exact hle
    · by_cases hov : s.maxQueueSize ≤ get_total_queue_size s
      · simp only [enqueue_job, hc, if_false, if_true, hov, if_pos,
          Bool.false_eq_true, ite_false, ite_true]
        simp [enqueue_job, hc, hov]
        simp [get_total_queue_size] at hle ⊢
        omega
      · have hlt : get_total_queue_size s < s.maxQueueSize :=
          Nat.not_le.mp hov
        simp [get_total_queue_size] at hlt
        by_cases hd : 0 < d
        · have h1 := zaddList_length s.delayed.low id (s.now + d)
          have h2 := zaddList_length s.delayed.normal id (s.now + d)
          have h3 := zaddList_length s.delayed.high id (s.now + d)
          have h4 := zaddList_length s.delayed.urgent id (s.now + d)
          cases p <;>
            (simp [enqueue_job, hc, hov, hd, increment_rate_limit];
             simp [get_total_queue_size, DelayedQueues.set,
               DelayedQueues.get];
             omega)
        · cases p <;>
            (simp [enqueue_job, hc, hov, hd, increment_rate_limit];
             simp [get_total_queue_size, PrioQueues.set, PrioQueues.get];
             omega)

/-- C3 witness: a concrete state exactly at capacity (`max_queue_size = 0`)
where both parts of the amended contract are exercised: the call is
rejected with the queue-full reason, nothing is created, and the total
stays within the bound. -/
theorem claim_C3_overflow_contract_witness :
    0 ≤ get_total_queue_size { now := 0, maxQueueSize := 0 } ∧
    (enqueue_job { now := 0, maxQueueSize := 0 } "u" "generation" "pay"
        .normal 0 "y").1.1 = false ∧
    (enqueue_job { now := 0, maxQueueSize := 0 } "u" "generation" "pay"
        .normal 0 "y").1.2.1 = "Queue is full, please try again later" ∧
    (enqueue_job { now := 0, maxQueueSize := 0 } "u" "generation" "pay"
        .normal 0 "y").1.2.2 = none ∧
    get_total_queue_size
        (enqueue_job { now := 0, maxQueueSize := 0 } "u" "generation"
          "pay" .normal 0 "y").2 ≤ 0 := by
  have h := claim_C3_overflow_contract { now := 0, maxQueueSize := 0 } "u"
    "generation" "pay" .normal 0 "y"
  exact ⟨Nat.zero_le _, (h.1 (by decide)).1, (h.1 (by decide)).2.2.2.2.2
    (by decide), (h.1 (by decide)).2.1, h.2 (by decide)⟩

/-- `_update_job_status` never touches the active queues. -/
theorem update_job_status_active (s : QState) (id : String)
    (st : JobStatus) (err : Option String) :
    (update_job_status s id st err).active = s.active := by
  simp only [update_job_status]
  split
  · rfl
  · split
    · rfl
    · split <;> rfl

/-- `_update_job_status` never touches the clock. -/
theorem update_job_status_now (s : QState) (id : String)
    (st : JobStatus) (err : Option String) :
    (update_job_status s id st err).now = s.now := by
  simp only [update_job_status]
  split
  · rfl
  · split
    · rfl
    · split <;> rfl

/-- `_update_job_status` never touches the dead-letter list. -/
theorem update_job_status_dlq (s : QState) (id : String)
    (st : JobStatus) (err : Option String) :
    (update_job_status s id st err).dlq = s.dlq := by
  simp only [update_job_status]
  split
  · rfl
  · split
    · rfl
    · split <;> rfl

/-- On a job whose stored record parses, `_update_job_status` sets the
"status" hash field to the new status's value. -/
theorem update_status_stored (s : QState) (id : String) (hsh : JobHash)
    (j : QueueJob) (st : JobStatus) (err : Option String)
    (hk : getKey s.store ("job:" ++ id) = some hsh)
    (hd : deserializeJob hsh.data = some j) :
    storedStatus (update_job_status s id st err) id = some st.value := by
  simp only [update_job_status, hk, hd]
  split <;> simp [storedStatus, getKey_setKey_self]

/-- The active list for a priority reads back what was just set. -/
theorem PrioQueues.get_set (q : PrioQueues) (p : QueuePriority)
    (l : List String) : (q.set p l).get p = l := by
  cases p <;> rfl

/-- The state after enqueuing jobs `j1` then `j2`, both at NORMAL priority
without delay, into a fresh manager. -/
def c6State : QState :=
  (enqueue_job (enqueue_job (freshState 0) "u" "generation" "payA"
    .normal 0 "j1").2 "u" "generation" "payB" .normal 0 "j2").2

/-- C6 counterexample: two equal-priority jobs `j1` then `j2`; the next
`dequeue_job` does not return the most recently enqueued job (`j2`) — the
id it pops and removes from the normal list is `j1`, the earliest enqueued
(lpush puts the newest at the head, brpop pops from the tail, i.e. FIFO),
and the call in fact returns `None` because the popped record fails to
parse, leaving `j2` still queued. -/
theorem claim_C6_counterexample :
    c6State.active.normal = ["j2", "j1"] ∧
    (dequeue_job c6State).1 = none ∧
    (dequeue_job c6State).2.active.normal = ["j2"] := by decide

/-- C6 amended: same-priority admission order forms a FIFO queue, not a
LIFO stack: a successful no-delay enqueue `lpush`es the new id at the head
of its priority's active list, and the `brpop` of a dequeue removes the id
at the tail — the earliest enqueued — so of two equal-priority jobs the
earlier one is popped first (and, records failing to parse, `dequeue_job`
returns `None` rather than that job, as the concrete scenario above
shows). -/
theorem claim_C6_fifo_tiebreak (s : QState) (u jt pl : String)
    (p : QueuePriority) (id : String) (l : List String) (a : String) :
    ((enqueue_job s u jt pl p 0 id).1.1 = true →
      (enqueue_job s u jt pl p 0 id).2.active.get p =
        id :: s.active.get p) ∧
    (s.active.get p = l ++ [a] →
      (dequeueFrom s p).2.active.get p = l) := by
  constructor
  · intro h
    by_cases hc : (check_rate_limit s u).1 = false
    · simp [enqueue_job, hc] at h
    · by_cases hov : s.maxQueueSize ≤ get_total_queue_size s
      · simp [enqueue_job, hc, hov] at h
      · simp [enqueue_job, hc, hov, increment_rate_limit,
          PrioQueues.get_set]
  · intro h
    have hlast : (s.active.get p).getLast? = some a := by
      simp [h, List.getLast?_concat]
    simp only [dequeueFrom, hlast]
    have hdrop : (s.active.get p).dropLast = l := by
      simp [h, List.dropLast_concat]
    cases hg : get_job_data
        { s with active := s.active.set p (s.active.get p).dropLast } a with
    | none => simp [hg, PrioQueues.get_set, hdrop]
    | some j =>
      simp [hg, update_job_status_active, PrioQueues.get_set, hdrop]

/-- C6 witness: the amended FIFO facts at concrete inputs — a successful
enqueue prepends its id, and a dequeue step on a two-element list removes
the tail element. -/
theorem claim_C6_fifo_tiebreak_witness :
    (enqueue_job (freshState 0) "u" "generation" "pay" .normal 0
        "idA").2.active.get .normal = ["idA"] ∧
    (dequeueFrom { now := 0, active := { normal := ["w1", "w2"] } }
        .normal).2.active.get .normal = ["w1"] :=
  ⟨(claim_C6_fifo_tiebreak (freshState 0) "u" "generation" "pay" .normal
      "idA" [] "x").1 (by decide),
    (claim_C6_fifo_tiebreak { now := 0, active := { normal := ["w1", "w2"] } }
      "u" "g" "p" .normal "y" ["w1"] "w2").2 (by decide)⟩

/-- `_update_job_status` is a no-op on a job whose stored record cannot be
parsed (key absent, or data failing `_get_job_data`'s conversions). -/
theorem update_job_status_unparsed (s : QState) (id : String)
    (st : JobStatus) (err : Option String)
    (h : get_job_data s id = none) :
    update_job_status s id st err = s := by
  unfold get_job_data at h
  cases hk : getKey s.store ("job:" ++ id) with
  | none => simp only [update_job_status, hk]
  | some hsh =>
    rw [hk] at h
    simp only [] at h
    simp only [update_job_status, hk, h]

/-- A stored job record that parses: the enum slots hold the member values
(integer 1 = NORMAL, string "failed"), as `_get_job_data` expects. -/
def parseableFailedData : StoredJobData :=
  { job_id := "jf", user_id := "u", job_type := "generation",
    payload := "pay", priority := .jint 1, status := .jstrv "failed",
    created_at := "5", scheduled_at := none, started_at := none,
    completed_at := some "9", retry_count := 0, max_retries := 3,
    timeout_seconds := 300, error_message := none, progress := 0,
    metadata := "" }

/-- A store holding one parseable job record in terminal status FAILED. -/
def c7TerminalState : QState :=
  { now := 50,
    store := [("job:jf",
      { data := parseableFailedData, user_id := "u", status := "failed" })] }

/-- The state after a fresh `enqueue_job` of job `q1` (whose record, as
always, fails to parse). -/
def c7QueuedState : QState :=
  (enqueue_job (freshState 0) "u" "generation" "pay" .normal 0 "q1").2

/-- C7 counterexample: a stored job record in terminal status FAILED (a
hand-written, parseable record: integer priority value, lowercase status
value) whose status a subsequent `complete_job` call changes to COMPLETED —
`_update_job_status` applies unconditionally, with no terminal-state
guard. -/
theorem claim_C7_counterexample :
    storedStatus c7TerminalState "jf" = some "failed" ∧
    (get_job_data c7TerminalState "jf").map QueueJob.status =
      some .failed ∧
    storedStatus (complete_job c7TerminalState "jf" "res") "jf" =
      some "completed" := by decide

/-- C7 amended: the code has no terminal-state guard — a parseable FAILED
record is overwritten by `complete_job` (see the counterexample) — but a
job whose stored record does not parse (which, by C1, includes every record
the queue manager itself writes) is never status-changed by
`_update_job_status`, `complete_job` or `fail_job`: the first two leave its
stored record untouched and `fail_job` is the identity. -/
theorem claim_C7_unparseable_frozen (s : QState) (id : String)
    (st : JobStatus) (err : Option String) (res e2 : String) (rty : Bool)
    (nid : String) (h : get_job_data s id = none) :
    update_job_status s id st err = s ∧
    storedStatus (complete_job s id res) id = storedStatus s id ∧
    fail_job s id e2 rty nid = s := by
  refine ⟨update_job_status_unparsed s id st err h, ?_, ?_⟩
  · simp [complete_job, update_job_status_unparsed s id .completed none h,
      storedStatus]
  · simp only [fail_job, h]

/-- C7 witness: a record freshly written by `enqueue_job` (hence
unparseable) is left untouched by a status update, a completion and a
failure report. -/
theorem claim_C7_unparseable_frozen_witness :
    get_job_data c7QueuedState "q1" = none ∧
    update_job_status c7QueuedState "q1" .completed none = c7QueuedState ∧
    storedStatus (complete_job c7QueuedState "q1" "res") "q1" =
      storedStatus c7QueuedState "q1" ∧
    fail_job c7QueuedState "q1" "err" true "r9" = c7QueuedState :=
  ⟨by decide,
    (claim_C7_unparseable_frozen c7QueuedState "q1" .completed none "res"
      "err" true "r9" (by decide)).1,
    (claim_C7_unparseable_frozen c7QueuedState "q1" .completed none "res"
      "err" true "r9" (by decide)).2.1,
    (claim_C7_unparseable_frozen c7QueuedState "q1" .completed none "res"
      "err" true "r9" (by decide)).2.2⟩

/-- The final-failure path on a job whose stored record parses: the stored
status becomes "failed" and the dead-letter snapshot of the local job
object heads the DLQ. -/
theorem finalFailure_spec (s : QState) (id : String) (hsh : JobHash)
    (jloc j : QueueJob) (err : String)
    (hk : getKey s.store ("job:" ++ id) = some hsh)
    (hd : deserializeJob hsh.data = some j) :
    storedStatus (finalFailure s id jloc err) id = some "failed" ∧
    (finalFailure s id jloc err).dlq.head? = some
      { job_id := jloc.job_id, user_id := jloc.user_id,
        job_type := jloc.job_type, failed_at := s.now, error := err,
        retry_count := jloc.retry_count,
        original_payload := jloc.payload } := by
  have h1 := update_status_stored s id hsh j .failed (some err) hk hd
  have h2 := update_job_status_now s id .failed (some err)
  constructor
  · simp only [finalFailure, storedStatus] at h1 ⊢
    exact h1
  · simp only [finalFailure]
    rw [h2]
    rfl

/-- C10: confirmed.  When `fail_job(job_id, error, retry=true)` runs on a
job whose stored record parses and which has retries remaining
(`retry_count + 1 ≤ max_retries`), the backoff re-enqueue goes through the
full `enqueue_job` admission path (rate-limit check, then overflow check);
if that admission is rejected — rate-limited user or full queue — the job
is immediately marked FAILED and a dead-letter entry recording the
incremented retry count is written, even though retries remained. -/
theorem claim_C10_rejected_retry_dead_letters (s : QState)
    (id err nid : String) (j : QueueJob)
    (hget : get_job_data s id = some j)
    (hretry : j.retry_count + 1 ≤ j.max_retries)
    (hrej : (enqueue_job s j.user_id j.job_type j.payload j.priority
        (min 300 (10 * 2 ^ (j.retry_count + 1))) nid).1.1 = false) :
    storedStatus (fail_job s id err true nid) id = some "failed" ∧
    (fail_job s id err true nid).dlq.head? = some
      { job_id := j.job_id, user_id := j.user_id, job_type := j.job_type,
        failed_at := s.now, error := err,
        retry_count := j.retry_count + 1,
        original_payload := j.payload } := by
  obtain ⟨hst, hact, hdel, hnow⟩ := enqueue_reject_state s j.user_id
    j.job_type j.payload j.priority
    (min 300 (10 * 2 ^ (j.retry_count + 1))) nid hrej
  have hhash : ∃ hsh, getKey s.store ("job:" ++ id) = some hsh ∧
      deserializeJob hsh.data = some j := by
    unfold get_job_data at hget
    cases hk : getKey s.store ("job:" ++ id) with
    | none => rw [hk] at hget; simp at hget
    | some hsh =>
      rw [hk] at hget
      simp only [] at hget
      exact ⟨hsh, rfl, hget⟩
  obtain ⟨hsh, hk, hd⟩ := hhash
  simp only [fail_job, hget]
  rw [if_pos (⟨trivial, hretry⟩ :
    True ∧ j.retry_count + 1 ≤ j.max_retries)]
  rw [hrej, if_neg (by decide : ¬(false = true))]
  have hk2 : getKey (enqueue_job s j.user_id j.job_type j.payload
      j.priority (min 300 (10 * 2 ^ (j.retry_count + 1))) nid).2.store
      ("job:" ++ id) = some hsh := by rw [hst]; exact hk
  have hs := finalFailure_spec (enqueue_job s j.user_id j.job_type
    j.payload j.priority (min 300 (10 * 2 ^ (j.retry_count + 1))) nid).2
    id hsh { j with retry_count := j.retry_count + 1 } j err hk2 hd
  rw [hnow] at hs
  exact hs

/-- A store with one parseable PROCESSING job and `max_queue_size = 0`, so
any re-enqueue is rejected as queue-full. -/
def c10State : QState :=
  { now := 50, maxQueueSize := 0,
    store := [("job:jf",
      { data := { parseableFailedData with status := .jstrv "processing" },
        user_id := "u", status := "processing" })] }

/-- The job the record above parses to. -/
def c10Job : QueueJob :=
  { job_id := "jf", user_id := "u", job_type := "generation",
    payload := "pay", priority := .normal, status := .processing,
    created_at := 5, completed_at := some 9 }

/-- C10 witness: the worker reports a retryable failure while the queue is
full; the re-enqueue is rejected by the admission path and the job goes
straight to FAILED with a dead-letter entry, though a retry remained. -/
theorem claim_C10_rejected_retry_dead_letters_witness :
    get_job_data c10State "jf" = some c10Job ∧
    c10Job.retry_count + 1 ≤ c10Job.max_retries ∧
    (enqueue_job c10State c10Job.user_id c10Job.job_type c10Job.payload
        c10Job.priority (min 300 (10 * 2 ^ (c10Job.retry_count + 1)))
        "r1").1.1 = false ∧
    storedStatus (fail_job c10State "jf" "worker err" true "r1") "jf" =
      some "failed" ∧
    (fail_job c10State "jf" "worker err" true "r1").dlq.head? = some
      { job_id := "jf", user_id := "u", job_type := "generation",
        failed_at := 50, error := "worker err", retry_count := 1,
        original_payload := "pay" } := by
  have h := claim_C10_rejected_retry_dead_letters c10State "jf"
    "worker err" "r1" c10Job (by decide) (by decide) (by decide)
  exact ⟨by decide, by decide, by decide, h.1, h.2⟩

end GameForge
